/-
Verification of the SmartHeart frontend (src/frontend/app/page.tsx and the
inlined API client module).  The TypeScript source is shallowly embedded:
React state updates become explicit functions on a state record, the axios
request and its possible failures become an explicit outcome datatype, and
the jsPDF document under construction becomes a list of pages of items.
JavaScript numbers are modelled as rationals.
-/
import Mathlib

namespace SmartHeart

/-- A browser File object, reduced to the two observable attributes the
page uses: its name and its text content. -/
structure FileD where
  name : String
  text : String
deriving DecidableEq, Repr

/-- The backend prediction response, from the `PredictionResponse`
interface of the API client module. -/
structure PredictionResponse where
  ecg_risk : Option ℚ
  pcg_risk : Option ℚ
  combined_risk : Option ℚ
  ecg_plot_data : Option (List (ℚ × ℚ))
  pcg_waveform_data : Option (List ℚ)
  pcg_spectrogram : Option String
  ecg_heatmap : Option (List ℚ)
  pcg_heatmap : Option (List ℚ)
deriving DecidableEq, Repr

/-- `getRiskColor` from page.tsx: gray for a null risk, red above 0.5,
emerald otherwise. -/
def getRiskColor (risk : Option ℚ) : String :=
  match risk with
  | none => "text-gray-400"
  | some r => if r > 0.5 then "text-red-400" else "text-emerald-400"

/-- `getRiskLabel` from page.tsx: "N/A" for a null risk, "HIGH RISK" above
0.5, "LOW RISK" otherwise. -/
def getRiskLabel (risk : Option ℚ) : String :=
  match risk with
  | none => "N/A"
  | some r => if r > 0.5 then "HIGH RISK" else "LOW RISK"

/-- JavaScript `x.toFixed(1)` for a nonnegative number: round to the
nearest tenth (ties away from zero) and print one fractional digit. -/
def toFixed1 (q : ℚ) : String :=
  let n : ℤ := ⌊q * 10 + 1 / 2⌋
  toString (n / 10) ++ "." ++ toString (n % 10)

/-- The risk line written into the PDF report by `generateReport` (the
`ecgRiskText` / `pcgRiskText` / `combinedRiskText` expressions): a
percentage plus a high/low tag, or "Not Available" for a null risk. -/
def reportRiskText (risk : Option ℚ) : String :=
  match risk with
  | none => "Not Available"
  | some r =>
    toFixed1 (r * 100) ++ "% (" ++ (if r > 0.5 then "HIGH RISK" else "LOW RISK") ++ ")"

/-- A JavaScript value as it appears to a `catch` clause: either an
`Error` object carrying a message, or any non-`Error` value. -/
inductive JsValue where
  | errorVal (msg : String)
  | otherVal
deriving DecidableEq, Repr

/-- How the body of the `try` block in `uploadFiles` can end once the
validation guard has passed: a successful response; an axios error with a
server response; an axios error where the request got no response; an
axios error with neither (a setup failure, still an `Error`); some other
thrown `Error`; or a thrown non-`Error` value.  The last two can only
arise before `axios.post` is reached. -/
inductive TryOutcome where
  | success (r : PredictionResponse)
  | axiosResponse (detail : Option String) (status : ℕ)
  | axiosNoResponse
  | axiosOther (msg : String)
  | otherThrownError (msg : String)
  | otherThrownNonError
deriving DecidableEq, Repr

/-- `axiosError.response.data?.detail || "Server error occurred"`: the
fallback fires when the detail is absent or the empty string. -/
def serverDetailMessage (detail : Option String) : String :=
  match detail with
  | some d => if d = "" then "Server error occurred" else d
  | none => "Server error occurred"

/-- `uploadFiles` from the API client module.  Returns whether
`axios.post` was invoked, paired with the returned response or the
propagated thrown value.  The both-files-absent validation failure throws
before any network activity; the thrown `Error` falls through the axios
checks of the catch block and is rethrown unchanged. -/
def uploadFiles (ecgFile pcgFile : Option FileD) (attempt : TryOutcome) :
    Bool × Except JsValue PredictionResponse :=
  if ecgFile.isNone && pcgFile.isNone then
    (false, Except.error (JsValue.errorVal "At least one file (ECG or PCG) must be provided"))
  else
    match attempt with
    | TryOutcome.success r => (true, Except.ok r)
    | TryOutcome.axiosResponse detail status =>
      (true, Except.error (JsValue.errorVal
        (serverDetailMessage detail ++ " (Status: " ++ toString status ++ ")")))
    | TryOutcome.axiosNoResponse =>
      (true, Except.error (JsValue.errorVal
        "Network error: Unable to reach the server. Please check if the backend is running."))
    | TryOutcome.axiosOther msg => (true, Except.error (JsValue.errorVal msg))
    | TryOutcome.otherThrownError msg => (false, Except.error (JsValue.errorVal msg))
    | TryOutcome.otherThrownNonError =>
      (false, Except.error (JsValue.errorVal "An unexpected error occurred during file upload"))

/-- Outcome of the `axios.get` of the health endpoint: a resolved
response with its status code, or any rejection (network failure,
timeout, or a non-2xx status rejected by axios). -/
inductive HealthOutcome where
  | response (status : ℕ)
  | failure
deriving DecidableEq, Repr

/-- `checkHealth` from the API client module: `response.status === 200`
on a resolved request, `false` from the catch-all. -/
def checkHealth (o : HealthOutcome) : Bool :=
  match o with
  | HealthOutcome.response status => status == 200
  | HealthOutcome.failure => false

/-- The React state of the `Home` component: one field per `useState`
hook, plus an allocation counter `nextUrl` standing for the browser's
supply of fresh object URLs (object URLs are modelled as naturals). -/
structure HomeState where
  ecgFile : Option FileD
  pcgFile : Option FileD
  result : Option PredictionResponse
  loading : Bool
  error : Option String
  activeTab : ℕ
  isPlaying : Bool
  pcgAudioUrl : Option ℕ
  showCsvModal : Bool
  csvData : Option (List (List String))
  csvLoading : Bool
  reportLoading : Bool
  nextUrl : ℕ

/-- The initial state of the component: every `useState` initializer. -/
def emptyState : HomeState :=
  { ecgFile := none, pcgFile := none, result := none, loading := false,
    error := none, activeTab := 0, isPlaying := false, pcgAudioUrl := none,
    showCsvModal := false, csvData := none, csvLoading := false,
    reportLoading := false, nextUrl := 0 }

/-- `handleEcgChange`: when the input event carries a file, store it,
clear the error, and reset the parsed CSV data. -/
def handleEcgChange (s : HomeState) (f : Option FileD) : HomeState :=
  match f with
  | none => s
  | some file => { s with ecgFile := some file, error := none, csvData := none }

/-- An observable object-URL action: `URL.revokeObjectURL` or
`URL.createObjectURL`. -/
inductive UrlEvent where
  | revoke (u : ℕ)
  | create (u : ℕ)
deriving DecidableEq, Repr

/-- `handlePcgChange`: when the event carries a file, store it, clear the
error, revoke the previous audio object URL if one exists, create a fresh
one, and stop playback.  The second component is the sequence of
object-URL actions performed, in order. -/
def handlePcgChange (s : HomeState) (f : Option FileD) : HomeState × List UrlEvent :=
  match f with
  | none => (s, [])
  | some file =>
    let revokes : List UrlEvent :=
      match s.pcgAudioUrl with
      | some u => [UrlEvent.revoke u]
      | none => []
    let u := s.nextUrl
    ({ s with pcgFile := some file, error := none, pcgAudioUrl := some u,
              nextUrl := u + 1, isPlaying := false },
     revokes ++ [UrlEvent.create u])

/-- The object-URL actions produced by a sequence of consecutive PCG file
selections, starting from state `s`. -/
def pcgSelectTrace (s : HomeState) : List FileD → List UrlEvent
  | [] => []
  | f :: fs =>
    (handlePcgChange s (some f)).2 ++ pcgSelectTrace (handlePcgChange s (some f)).1 fs

/-- The object-URL action pattern `n` consecutive selections must follow
when the currently held URL is `prev` and the next fresh URL is `k`:
revoke the held URL (if any), create the fresh one, and repeat with the
fresh URL held. -/
def expectedUrlTrace (prev : Option ℕ) (k : ℕ) : ℕ → List UrlEvent
  | 0 => []
  | n + 1 =>
    (match prev with
     | some u => [UrlEvent.revoke u]
     | none => []) ++
    UrlEvent.create k :: expectedUrlTrace (some k) (k + 1) n

/-- JavaScript `String.prototype.split` with a single-character
separator, at the character-list level: `"".split(c)` is `[""]`, and
adjacent separators yield empty fields. -/
def splitOnChar (c : Char) : List Char → List (List Char)
  | [] => [[]]
  | x :: xs =>
    if x = c then [] :: splitOnChar c xs
    else
      match splitOnChar c xs with
      | [] => [[x]]
      | y :: ys => (x :: y) :: ys

/-- JavaScript `String.prototype.trim` at the character-list level:
drop whitespace from both ends. -/
def trimList (l : List Char) : List Char :=
  ((l.dropWhile Char.isWhitespace).reverse.dropWhile Char.isWhitespace).reverse

/-- The CSV table built by `handleViewCsvData`:
`text.trim().split("\n").map(row => row.split(","))`. -/
def csvRows (text : String) : List (List String) :=
  (splitOnChar (Char.ofNat 10) (trimList text.toList)).map
    (fun row => (splitOnChar ',' row).map (fun cs => String.mk cs))

/-- `handleViewCsvData`: nothing happens without a selected ECG file;
on a successful read the parsed rows are stored and the modal opened;
a failed read surfaces "Failed to parse CSV file".  `csvLoading` is set
while reading and cleared by the `finally`, so it ends false. -/
def handleViewCsvData (s : HomeState) (readOk : Bool) : HomeState :=
  match s.ecgFile with
  | none => s
  | some f =>
    if readOk then
      { s with csvData := some (csvRows f.text), showCsvModal := true, csvLoading := false }
    else
      { s with error := some "Failed to parse CSV file", csvLoading := false }

/-- What the CSV modal renders from the stored rows. -/
structure CsvModalView where
  rowCountLabel : ℕ
  colCountLabel : ℕ
  displayedRows : List (List String)
  truncationNote : Option String
deriving DecidableEq, Repr

/-- The CSV modal of the `Home` component: the header badge shows
`csvData.length` rows and `csvData[0]?.length || 0` columns, the body
renders `csvData.slice(0, 200)`, and a trailing note appears only when
more than 200 rows exist. -/
def csvModalView (rows : List (List String)) : CsvModalView :=
  { rowCountLabel := rows.length
  , colCountLabel := (rows.headD []).length
  , displayedRows := rows.take 200
  , truncationNote :=
      if 200 < rows.length then
        some ("Showing first 200 rows of " ++ toString rows.length ++ " total rows")
      else none }

/-- The message computed by the catch clause of `handleAnalyze`:
`err instanceof Error ? err.message : "An error occurred during analysis"`. -/
def caughtMessage (v : JsValue) : String :=
  match v with
  | JsValue.errorVal msg => msg
  | JsValue.otherVal => "An error occurred during analysis"

/-- One execution of `handleAnalyze`: whether `uploadFiles` was invoked,
the state while the request is in flight, and the state after the
`finally` ran. -/
structure AnalyzeRun where
  called : Bool
  mid : HomeState
  final : HomeState

/-- `handleAnalyze`: with no file selected, set the validation error and
return before any I/O; otherwise set the loading flag, clear the error,
invoke `uploadFiles`, store the result and reset the tab on success or
set the caught message on failure, and clear the loading flag in the
`finally`. -/
def handleAnalyze (s : HomeState) (outcome : Except JsValue PredictionResponse) : AnalyzeRun :=
  if s.ecgFile.isNone && s.pcgFile.isNone then
    let s1 := { s with error := some "Please upload at least one file (ECG or PCG)" }
    { called := false, mid := s1, final := s1 }
  else
    let s1 := { s with loading := true, error := none }
    match outcome with
    | Except.ok r =>
      { called := true, mid := s1,
        final := { s1 with result := some r, activeTab := 0, loading := false } }
    | Except.error v =>
      { called := true, mid := s1,
        final := { s1 with error := some (caughtMessage v), loading := false } }

/-- One drawing operation recorded on a PDF page. -/
inductive PdfItem where
  | line
  | textItem (s : String)
  | sectionHdr (s : String)
  | labeled (label : String) (value : String)
  | image (tag : String)
  | footer (s : String)
deriving DecidableEq, Repr

/-- A PDF page is the sequence of items drawn on it. -/
abbrev Page := List PdfItem

/-- The document under construction inside `generateReport`: the pages
already completed by `pdf.addPage()`, the current page, the running
`yPos` cursor (in millimetres), and the `console.error` log. -/
structure GenState where
  donePages : List Page
  current : Page
  yPos : ℚ
  logs : List String

/-- Draw an item on the current page. -/
def putItem (g : GenState) (it : PdfItem) : GenState :=
  { g with current := g.current ++ [it] }

/-- Advance the `yPos` cursor. -/
def bumpY (g : GenState) (d : ℚ) : GenState :=
  { g with yPos := g.yPos + d }

/-- `pdf.addPage()` followed by `yPos = 20`. -/
def addPage (g : GenState) : GenState :=
  { g with donePages := g.donePages ++ [g.current], current := [], yPos := 20 }

/-- Record a `console.error` call. -/
def logErr (g : GenState) (m : String) : GenState :=
  { g with logs := g.logs ++ [m] }

/-- The `addSectionHeader` helper of `generateReport`: draw the header
text and advance `yPos` by 8. -/
def addSectionHeaderG (g : GenState) (t : String) : GenState :=
  bumpY (putItem g (PdfItem.sectionHdr t)) 8

/-- The `addText` helper of `generateReport`: draw a bold label and its
value and advance `yPos` by 6. -/
def addTextG (g : GenState) (label value : String) : GenState :=
  bumpY (putItem g (PdfItem.labeled label value)) 6

/-- One guarded chart-capture block of `generateReport`: `html2canvas`
either yields an image of some height (page break near the bottom margin,
then the section header and the image, then advance `yPos`), or throws,
in which case the failure is logged and the whole section is skipped. -/
def addChartG (g : GenState) (title : String) (capture : Option ℚ) (failMsg : String) :
    GenState :=
  match capture with
  | none => logErr g failMsg
  | some h =>
    let g1 := if g.yPos + h > 280 then addPage g else g
    bumpY (putItem (addSectionHeaderG g1 title) (PdfItem.image title)) (h + 10)

/-- The spectrogram block of `generateReport`: fixed height 60, page
break check, then the section header; `pdf.addImage` of the embedded
image may itself throw, which is logged — but the header was already
drawn. -/
def addSpectrogramG (g : GenState) (ok : Bool) : GenState :=
  let g1 := if g.yPos + 60 > 280 then addPage g else g
  let g2 := addSectionHeaderG g1 "PCG Spectrogram"
  if ok then bumpY (putItem g2 (PdfItem.image "PCG Spectrogram")) (60 + 10)
  else logErr g2 "Failed to add spectrogram:"

/-- The "Files Analyzed" lines: one `addText` per present file. -/
def stepFile (g : GenState) (label : String) (o : Option FileD) : GenState :=
  match o with
  | some f => addTextG g label f.name
  | none => g

/-- A chart-capture block guarded by its enabling condition (the data
being present and the on-screen region being mounted). -/
def stepChart (g : GenState) (cond : Bool) (title : String) (capture : Option ℚ)
    (failMsg : String) : GenState :=
  if cond then addChartG g title capture failMsg else g

/-- The spectrogram block guarded by `result.pcg_spectrogram` being
present. -/
def stepSpectrogram (g : GenState) (cond ok : Bool) : GenState :=
  if cond then addSpectrogramG g ok else g

/-- The environment `generateReport` runs in: which chart regions are
mounted in the DOM, the outcome of each `html2canvas` capture (`some h` =
an image whose scaled height is `h`; `none` = the capture threw), whether
`pdf.addImage` of the spectrogram succeeds, and the formatted date and
time strings. -/
structure CaptureEnv where
  riskChartMounted : Bool
  riskCapture : Option ℚ
  ecgChartMounted : Bool
  ecgCapture : Option ℚ
  pcgChartMounted : Bool
  pcgCapture : Option ℚ
  spectrogramOk : Bool
  dateStr : String
  timeStr : String

/-- The disclaimer stamped on every page. -/
def disclaimerText : String :=
  "SmartHeart - AI-powered multimodal cardiovascular risk assessment system | For research and educational purposes only"

/-- The page-number stamp. -/
def pageOfText (i total : ℕ) : String :=
  "Page " ++ toString i ++ " of " ++ toString total

/-- The body of `generateReport` before the footer loop: title, subtitle,
timestamp, divider, the risk-assessment section, the files-analyzed
section, then the four guarded chart blocks, in source order. -/
def genBody (result : PredictionResponse) (ecgFile pcgFile : Option FileD)
    (env : CaptureEnv) : GenState :=
  let g : GenState := { donePages := [], current := [], yPos := 20, logs := [] }
  let g := bumpY (putItem g (PdfItem.textItem "SmartHeart Analysis Report")) 10
  let g := bumpY (putItem g
    (PdfItem.textItem "Bimodal Deep Learning for ECG and PCG-Based Cardiac Monitoring")) 15
  let g := bumpY (putItem g
    (PdfItem.textItem ("Report Generated: " ++ env.dateStr ++ " at " ++ env.timeStr))) 15
  let g := putItem g PdfItem.line
  let g := bumpY (addSectionHeaderG g "Risk Assessment Results") 2
  let g := addTextG g "ECG Risk" (reportRiskText result.ecg_risk)
  let g := addTextG g "PCG Risk" (reportRiskText result.pcg_risk)
  let g := addTextG g "Combined Risk" (reportRiskText result.combined_risk)
  let g := bumpY g 10
  let g := bumpY (addSectionHeaderG g "Files Analyzed") 2
  let g := stepFile g "ECG File" ecgFile
  let g := stepFile g "PCG File" pcgFile
  let g := bumpY g 10
  let g := stepChart g env.riskChartMounted "Risk Assessment Overview" env.riskCapture
    "Failed to capture risk chart:"
  let g := stepChart g (result.ecg_plot_data.isSome && env.ecgChartMounted)
    "ECG Signal Visualization" env.ecgCapture "Failed to capture ECG chart:"
  let g := stepChart g (result.pcg_waveform_data.isSome && env.pcgChartMounted)
    "PCG Waveform Visualization" env.pcgCapture "Failed to capture PCG chart:"
  stepSpectrogram g result.pcg_spectrogram.isSome env.spectrogramOk

/-- The footer loop: `for i = 1..pageCount` stamp the disclaimer and
"Page i of pageCount" onto page `i`. -/
def stampFooters (total : ℕ) : ℕ → List Page → List Page
  | _, [] => []
  | i, p :: ps =>
    (p ++ [PdfItem.footer disclaimerText, PdfItem.footer (pageOfText i total)]) ::
      stampFooters total (i + 1) ps

/-- `generateReport`: assemble the body, then stamp footers on every
page.  Returns the finished pages and the `console.error` log. -/
def generateReport (result : PredictionResponse) (ecgFile pcgFile : Option FileD)
    (env : CaptureEnv) : List Page × List String :=
  let g := genBody result ecgFile pcgFile env
  let pages := g.donePages ++ [g.current]
  (stampFooters pages.length 1 pages, g.logs)

/-- All items of a document, across pages. -/
def docItems (doc : List Page) : List PdfItem := doc.flatten

/-- The titles of the four possible rasterized chart sections. -/
def chartSectionTitles : List String :=
  ["Risk Assessment Overview", "ECG Signal Visualization",
   "PCG Waveform Visualization", "PCG Spectrogram"]

/-- A document contains at least one chart section. -/
def hasChartSection (doc : List Page) : Prop :=
  ∃ t, t ∈ chartSectionTitles ∧ PdfItem.sectionHdr t ∈ docItems doc

/-- All items drawn so far, across completed pages and the current one. -/
def allItems (g : GenState) : List PdfItem := g.donePages.flatten ++ g.current

/-- The items a guarded chart-capture block contributes. -/
def chunkChart (cond : Bool) (capture : Option ℚ) (title : String) : List PdfItem :=
  if cond then
    match capture with
    | some _ => [PdfItem.sectionHdr title, PdfItem.image title]
    | none => []
  else []

/-- The items the spectrogram block contributes: the header survives an
`addImage` failure. -/
def chunkSpec (cond ok : Bool) : List PdfItem :=
  if cond then
    PdfItem.sectionHdr "PCG Spectrogram" ::
      (if ok then [PdfItem.image "PCG Spectrogram"] else [])
  else []

/-- The items a "Files Analyzed" line contributes. -/
def fileChunk (label : String) (o : Option FileD) : List PdfItem :=
  match o with
  | some f => [PdfItem.labeled label f.name]
  | none => []

/-- The log entries a guarded chart-capture block contributes. -/
def chunkChartLog (cond : Bool) (capture : Option ℚ) (failMsg : String) : List String :=
  if cond then
    match capture with
    | some _ => []
    | none => [failMsg]
  else []

/-- The log entries the spectrogram block contributes. -/
def chunkSpecLog (cond ok : Bool) : List String :=
  if cond then (if ok then [] else ["Failed to add spectrogram:"]) else []

/-- The complete item sequence of the report body, in drawing order. -/
def bodyChunks (r : PredictionResponse) (e p : Option FileD) (env : CaptureEnv) :
    List PdfItem :=
  [PdfItem.textItem "SmartHeart Analysis Report",
   PdfItem.textItem "Bimodal Deep Learning for ECG and PCG-Based Cardiac Monitoring",
   PdfItem.textItem ("Report Generated: " ++ env.dateStr ++ " at " ++ env.timeStr),
   PdfItem.line,
   PdfItem.sectionHdr "Risk Assessment Results",
   PdfItem.labeled "ECG Risk" (reportRiskText r.ecg_risk),
   PdfItem.labeled "PCG Risk" (reportRiskText r.pcg_risk),
   PdfItem.labeled "Combined Risk" (reportRiskText r.combined_risk),
   PdfItem.sectionHdr "Files Analyzed"] ++
  fileChunk "ECG File" e ++ fileChunk "PCG File" p ++
  chunkChart env.riskChartMounted env.riskCapture "Risk Assessment Overview" ++
  chunkChart (r.ecg_plot_data.isSome && env.ecgChartMounted) env.ecgCapture
    "ECG Signal Visualization" ++
  chunkChart (r.pcg_waveform_data.isSome && env.pcgChartMounted) env.pcgCapture
    "PCG Waveform Visualization" ++
  chunkSpec r.pcg_spectrogram.isSome env.spectrogramOk

/-- The complete `console.error` log of one `generateReport` run. -/
def logChunks (r : PredictionResponse) (env : CaptureEnv) : List String :=
  chunkChartLog env.riskChartMounted env.riskCapture "Failed to capture risk chart:" ++
  chunkChartLog (r.ecg_plot_data.isSome && env.ecgChartMounted) env.ecgCapture
    "Failed to capture ECG chart:" ++
  chunkChartLog (r.pcg_waveform_data.isSome && env.pcgChartMounted) env.pcgCapture
    "Failed to capture PCG chart:" ++
  chunkSpecLog r.pcg_spectrogram.isSome env.spectrogramOk

/-- A sample ECG CSV file. -/
def fileCsv : FileD := { name := "ecg.csv", text := "1,2\n3,4\n5,6" }

/-- A sample PCG WAV file. -/
def fileWav : FileD := { name := "pcg.wav", text := "RIFF" }

/-- A second sample PCG WAV file. -/
def fileWav2 : FileD := { name := "pcg2.wav", text := "RIFF2" }

/-- A backend response carrying risks but no plot, waveform or
spectrogram data. -/
def noDataResult : PredictionResponse :=
  { ecg_risk := some (7 / 10), pcg_risk := none, combined_risk := some (3 / 10),
    ecg_plot_data := none, pcg_waveform_data := none, pcg_spectrogram := none,
    ecg_heatmap := none, pcg_heatmap := none }

/-- A backend response carrying every field. -/
def fullResult : PredictionResponse :=
  { ecg_risk := some (7 / 10), pcg_risk := some (2 / 10), combined_risk := some (6 / 10),
    ecg_plot_data := some [(0, 1)], pcg_waveform_data := some [1, 2],
    pcg_spectrogram := some "base64img", ecg_heatmap := some [1],
    pcg_heatmap := some [0] }

/-- A capture environment where every chart region is mounted and every
capture succeeds. -/
def envAllOk : CaptureEnv :=
  { riskChartMounted := true, riskCapture := some 50,
    ecgChartMounted := true, ecgCapture := some 50,
    pcgChartMounted := true, pcgCapture := some 50,
    spectrogramOk := true, dateStr := "10/12/2026", timeStr := "10:00:00 AM" }

/-- A capture environment where the risk and ECG captures throw while the
PCG capture succeeds. -/
def envPartialFail : CaptureEnv :=
  { riskChartMounted := true, riskCapture := none,
    ecgChartMounted := true, ecgCapture := none,
    pcgChartMounted := true, pcgCapture := some 40,
    spectrogramOk := true, dateStr := "10/12/2026", timeStr := "10:00:00 AM" }

/-- A component state holding a previous error and a parsed CSV table. -/
def csvState : HomeState :=
  { emptyState with csvData := some [["1"]], error := some "previous error" }

/-- A component state with only an ECG file selected. -/
def ecgOnlyState : HomeState := { emptyState with ecgFile := some fileCsv }

@[simp]
lemma allItems_putItem (g : GenState) (it : PdfItem) :
    allItems (putItem g it) = allItems g ++ [it] := by
  simp [allItems, putItem]

@[simp]
lemma allItems_bumpY (g : GenState) (d : ℚ) : allItems (bumpY g d) = allItems g := by
  simp [allItems, bumpY]

@[simp]
lemma allItems_addPage (g : GenState) : allItems (addPage g) = allItems g := by
  simp [allItems, addPage]

@[simp]
lemma allItems_logErr (g : GenState) (m : String) : allItems (logErr g m) = allItems g := by
  simp [allItems, logErr]

@[simp]
lemma allItems_addSectionHeaderG (g : GenState) (t : String) :
    allItems (addSectionHeaderG g t) = allItems g ++ [PdfItem.sectionHdr t] := by
  simp [addSectionHeaderG]

@[simp]
lemma allItems_addTextG (g : GenState) (label value : String) :
    allItems (addTextG g label value) = allItems g ++ [PdfItem.labeled label value] := by
  simp [addTextG]

lemma allItems_addChartG (g : GenState) (t : String) (c : Option ℚ) (m : String) :
    allItems (addChartG g t c m) =
      allItems g ++
        (match c with
         | some _ => [PdfItem.sectionHdr t, PdfItem.image t]
         | none => []) := by
  cases c with
  | none => simp [addChartG]
  | some h =>
    by_cases hc : g.yPos + h > 280 <;> simp [addChartG, hc]

lemma allItems_addSpectrogramG (g : GenState) (ok : Bool) :
    allItems (addSpectrogramG g ok) =
      allItems g ++
        (PdfItem.sectionHdr "PCG Spectrogram" ::
          (if ok then [PdfItem.image "PCG Spectrogram"] else [])) := by
  cases ok <;> by_cases hc : g.yPos + 60 > 280 <;> simp [addSpectrogramG, hc]

lemma allItems_stepFile (g : GenState) (label : String) (o : Option FileD) :
    allItems (stepFile g label o) = allItems g ++ fileChunk label o := by
  cases o <;> simp [stepFile, fileChunk]

lemma allItems_stepChart (g : GenState) (cond : Bool) (t : String) (c : Option ℚ)
    (m : String) :
    allItems (stepChart g cond t c m) = allItems g ++ chunkChart cond c t := by
  cases cond <;> simp [stepChart, chunkChart, allItems_addChartG]

lemma allItems_stepSpectrogram (g : GenState) (cond ok : Bool) :
    allItems (stepSpectrogram g cond ok) = allItems g ++ chunkSpec cond ok := by
  cases cond <;> simp [stepSpectrogram, chunkSpec, allItems_addSpectrogramG]

lemma allItems_genBody (r : PredictionResponse) (e p : Option FileD) (env : CaptureEnv) :
    allItems (genBody r e p env) = bodyChunks r e p env := by
  simp only [genBody, allItems_stepSpectrogram, allItems_stepChart, allItems_stepFile,
    allItems_bumpY, allItems_addTextG, allItems_addSectionHeaderG, allItems_putItem]
  simp [allItems, bodyChunks, List.append_assoc]

@[simp]
lemma logs_putItem (g : GenState) (it : PdfItem) : (putItem g it).logs = g.logs := rfl

@[simp]
lemma logs_bumpY (g : GenState) (d : ℚ) : (bumpY g d).logs = g.logs := rfl

@[simp]
lemma logs_addPage (g : GenState) : (addPage g).logs = g.logs := rfl

@[simp]
lemma logs_addSectionHeaderG (g : GenState) (t : String) :
    (addSectionHeaderG g t).logs = g.logs := rfl

@[simp]
lemma logs_addTextG (g : GenState) (label value : String) :
    (addTextG g label value).logs = g.logs := rfl

@[simp]
lemma logs_logErr (g : GenState) (m : String) : (logErr g m).logs = g.logs ++ [m] := rfl

lemma logs_addChartG (g : GenState) (t : String) (c : Option ℚ) (m : String) :
    (addChartG g t c m).logs =
      g.logs ++ (match c with | some _ => [] | none => [m]) := by
  cases c with
  | none => simp [addChartG]
  | some h => by_cases hc : g.yPos + h > 280 <;> simp [addChartG, hc]

lemma logs_addSpectrogramG (g : GenState) (ok : Bool) :
    (addSpectrogramG g ok).logs =
      g.logs ++ (if ok then [] else ["Failed to add spectrogram:"]) := by
  cases ok <;> by_cases hc : g.yPos + 60 > 280 <;> simp [addSpectrogramG, hc]

lemma logs_stepFile (g : GenState) (label : String) (o : Option FileD) :
    (stepFile g label o).logs = g.logs := by
  cases o <;> simp [stepFile]

lemma logs_stepChart (g : GenState) (cond : Bool) (t : String) (c : Option ℚ)
    (m : String) :
    (stepChart g cond t c m).logs = g.logs ++ chunkChartLog cond c m := by
  cases cond <;> simp [stepChart, chunkChartLog, logs_addChartG]

lemma logs_stepSpectrogram (g : GenState) (cond ok : Bool) :
    (stepSpectrogram g cond ok).logs = g.logs ++ chunkSpecLog cond ok := by
  cases cond <;> simp [stepSpectrogram, chunkSpecLog, logs_addSpectrogramG]

lemma logs_genBody (r : PredictionResponse) (e p : Option FileD) (env : CaptureEnv) :
    (genBody r e p env).logs = logChunks r env := by
  simp [genBody, logChunks, logs_stepSpectrogram, logs_stepChart, logs_stepFile]

lemma stampFooters_length (t : ℕ) : ∀ (i : ℕ) (ps : List Page),
    (stampFooters t i ps).length = ps.length := by
  intro i ps
  induction ps generalizing i with
  | nil => simp [stampFooters]
  | cons p ps ih => simp [stampFooters, ih]

lemma mem_flatten_stampFooters (t : ℕ) {x : PdfItem} : ∀ (i : ℕ) (ps : List Page),
    x ∈ ps.flatten → x ∈ (stampFooters t i ps).flatten := by
  intro i ps
  induction ps generalizing i with
  | nil => simp [stampFooters]
  | cons p ps ih =>
    intro hx
    simp only [List.flatten_cons, List.mem_append] at hx
    rcases hx with hx | hx
    · simp [stampFooters, hx]
    · simp [stampFooters, ih (i + 1) hx]

lemma flatten_stampFooters_subset (t : ℕ) {x : PdfItem} : ∀ (i : ℕ) (ps : List Page),
    x ∈ (stampFooters t i ps).flatten → x ∈ ps.flatten ∨ ∃ s, x = PdfItem.footer s := by
  intro i ps
  induction ps generalizing i with
  | nil => simp [stampFooters]
  | cons p ps ih =>
    intro hx
    rw [stampFooters, List.flatten_cons] at hx
    rcases List.mem_append.mp hx with hx | hx
    · rcases List.mem_append.mp hx with hx | hx
      · exact Or.inl (by simp [hx])
      · simp only [List.mem_cons, List.not_mem_nil, or_false] at hx
        rcases hx with hx | hx
        · exact Or.inr ⟨disclaimerText, hx⟩
        · exact Or.inr ⟨pageOfText i t, hx⟩
    · rcases ih (i + 1) hx with h | h
      · exact Or.inl (by simp [h])
      · exact Or.inr h

lemma disclaimer_mem_stampFooters (t : ℕ) : ∀ (i : ℕ) (ps : List Page) (p : Page),
    p ∈ stampFooters t i ps → PdfItem.footer disclaimerText ∈ p := by
  intro i ps
  induction ps generalizing i with
  | nil => simp [stampFooters]
  | cons q ps ih =>
    intro p hp
    simp only [stampFooters, List.mem_cons] at hp
    rcases hp with hp | hp
    · subst hp; simp
    · exact ih (i + 1) p hp

lemma pageOf_mem_stampFooters (t : ℕ) : ∀ (i : ℕ) (ps : List Page) (p : Page),
    p ∈ stampFooters t i ps →
      ∃ n, i ≤ n ∧ n < i + ps.length ∧ PdfItem.footer (pageOfText n t) ∈ p := by
  intro i ps
  induction ps generalizing i with
  | nil => simp [stampFooters]
  | cons q ps ih =>
    intro p hp
    simp only [stampFooters, List.mem_cons] at hp
    rcases hp with hp | hp
    · subst hp
      exact ⟨i, le_refl i, by simp, by simp⟩
    · rcases ih (i + 1) p hp with ⟨n, h1, h2, h3⟩
      exact ⟨n, by omega, by simp at h2 ⊢; omega, h3⟩

lemma docItems_generateReport (r : PredictionResponse) (e p : Option FileD)
    (env : CaptureEnv) {x : PdfItem} :
    x ∈ docItems (generateReport r e p env).1 →
      x ∈ bodyChunks r e p env ∨ ∃ s, x = PdfItem.footer s := by
  intro hx
  simp only [generateReport, docItems] at hx
  rcases flatten_stampFooters_subset _ _ _ hx with h | h
  · left
    have hb := allItems_genBody r e p env
    simp only [allItems] at hb
    simpa [hb.symm] using h
  · exact Or.inr h

lemma mem_docItems_generateReport (r : PredictionResponse) (e p : Option FileD)
    (env : CaptureEnv) {x : PdfItem} :
    x ∈ bodyChunks r e p env → x ∈ docItems (generateReport r e p env).1 := by
  intro hx
  simp only [generateReport, docItems]
  apply mem_flatten_stampFooters
  have hb := allItems_genBody r e p env
  simp only [allItems] at hb
  simpa [hb] using hx

lemma generateReport_logs (r : PredictionResponse) (e p : Option FileD)
    (env : CaptureEnv) : (generateReport r e p env).2 = logChunks r env := by
  simp [generateReport, logs_genBody]

lemma generateReport_length_pos (r : PredictionResponse) (e p : Option FileD)
    (env : CaptureEnv) : 0 < (generateReport r e p env).1.length := by
  simp [generateReport, stampFooters_length]

lemma generateReport_ne_nil (r : PredictionResponse) (e p : Option FileD)
    (env : CaptureEnv) : (generateReport r e p env).1 ≠ [] :=
  List.ne_nil_of_length_pos (generateReport_length_pos r e p env)

lemma sectionHdr_mem_chunkChart (cond : Bool) (cap : Option ℚ) (t0 t : String) :
    PdfItem.sectionHdr t ∈ chunkChart cond cap t0 →
      t = t0 ∧ cond = true ∧ cap.isSome = true := by
  cases cond <;> cases cap <;> simp [chunkChart]

lemma sectionHdr_mem_chunkSpec (cond ok : Bool) (t : String) :
    PdfItem.sectionHdr t ∈ chunkSpec cond ok →
      t = "PCG Spectrogram" ∧ cond = true := by
  cases cond <;> cases ok <;> simp [chunkSpec]

lemma mem_fileChunk {x : PdfItem} (label : String) (o : Option FileD) :
    x ∈ fileChunk label o → ∃ nm, x = PdfItem.labeled label nm := by
  cases o with
  | none => simp [fileChunk]
  | some f =>
    intro hx
    simp only [fileChunk, List.mem_singleton] at hx
    exact ⟨f.name, hx⟩

lemma sectionHdr_mem_bodyChunks (r : PredictionResponse) (e p : Option FileD)
    (env : CaptureEnv) {t : String} :
    PdfItem.sectionHdr t ∈ bodyChunks r e p env →
      t = "Risk Assessment Results" ∨ t = "Files Analyzed" ∨
      (t = "Risk Assessment Overview" ∧ env.riskChartMounted = true ∧
        env.riskCapture.isSome = true) ∨
      (t = "ECG Signal Visualization" ∧
        (r.ecg_plot_data.isSome && env.ecgChartMounted) = true ∧
        env.ecgCapture.isSome = true) ∨
      (t = "PCG Waveform Visualization" ∧
        (r.pcg_waveform_data.isSome && env.pcgChartMounted) = true ∧
        env.pcgCapture.isSome = true) ∨
      (t = "PCG Spectrogram" ∧ r.pcg_spectrogram.isSome = true) := by
  intro hb
  simp only [bodyChunks, List.append_assoc, List.mem_append] at hb
  rcases hb with hb | hb | hb | hb | hb | hb | hb
  · simp at hb
    tauto
  · rcases mem_fileChunk _ _ hb with ⟨nm, hx⟩
    exact absurd hx (by simp)
  · rcases mem_fileChunk _ _ hb with ⟨nm, hx⟩
    exact absurd hx (by simp)
  · exact Or.inr (Or.inr (Or.inl (sectionHdr_mem_chunkChart _ _ _ _ hb)))
  · exact Or.inr (Or.inr (Or.inr (Or.inl (sectionHdr_mem_chunkChart _ _ _ _ hb))))
  · exact Or.inr (Or.inr (Or.inr (Or.inr (Or.inl
      (sectionHdr_mem_chunkChart _ _ _ _ hb)))))
  · have hs := sectionHdr_mem_chunkSpec _ _ _ hb
    exact Or.inr (Or.inr (Or.inr (Or.inr (Or.inr ⟨hs.1, hs.2⟩))))

lemma sectionHdr_mem_chunkChart_self (cond : Bool) (cap : Option ℚ) (t : String)
    (hc : cond = true) (hcap : cap.isSome = true) :
    PdfItem.sectionHdr t ∈ chunkChart cond cap t := by
  subst hc
  rcases Option.isSome_iff_exists.mp hcap with ⟨h, rfl⟩
  simp [chunkChart]

lemma expectedUrlTrace_succ (prev : Option ℕ) (k m : ℕ) :
    expectedUrlTrace prev k (m + 1) =
      (match prev with
       | some u => [UrlEvent.revoke u]
       | none => []) ++
      UrlEvent.create k :: expectedUrlTrace (some k) (k + 1) m := rfl

lemma pcgSelectTrace_eq (fs : List FileD) : ∀ (s : HomeState),
    pcgSelectTrace s fs = expectedUrlTrace s.pcgAudioUrl s.nextUrl fs.length := by
  induction fs with
  | nil => intro s; simp [pcgSelectTrace, expectedUrlTrace]
  | cons f fs ih =>
    intro s
    cases h : s.pcgAudioUrl <;>
      simp [pcgSelectTrace, handlePcgChange, expectedUrlTrace_succ, h, ih]

lemma expectedUrlTrace_no_leak : ∀ (n : ℕ) (prev : Option ℕ) (k u : ℕ),
    UrlEvent.create u ∈ expectedUrlTrace prev k n →
    UrlEvent.revoke u ∈ expectedUrlTrace prev k n ∨ u = k + n - 1 := by
  intro n
  induction n with
  | zero =>
    intro prev k u h
    cases prev <;> simp [expectedUrlTrace] at h
  | succ m ih =>
    intro prev k u h
    have htail : u = k ∨ UrlEvent.create u ∈ expectedUrlTrace (some k) (k + 1) m := by
      cases prev <;> simpa [expectedUrlTrace_succ] using h
    rcases htail with hu | hmem
    · subst hu
      cases m with
      | zero => right; omega
      | succ m2 =>
        left
        have hrev : UrlEvent.revoke u ∈ expectedUrlTrace (some u) (u + 1) (m2 + 1) := by
          rw [expectedUrlTrace_succ]
          simp
        rw [expectedUrlTrace_succ]
        exact List.mem_append.mpr (Or.inr (List.mem_cons.mpr (Or.inr hrev)))
    · rcases ih (some k) (k + 1) u hmem with h2 | h2
      · left
        rw [expectedUrlTrace_succ]
        exact List.mem_append.mpr (Or.inr (List.mem_cons.mpr (Or.inr h2)))
      · right
        omega

/-- Claim C1: when both the ECG file and the PCG file are absent,
`handleAnalyze` makes no network call (`uploadFiles` is never invoked),
sets the "at least one file" validation error, and leaves the loading
flag untouched; and `uploadFiles` itself, called with two absent files,
issues no network call and propagates its own "at least one file"
validation error. -/
theorem c1_no_files_rejected_before_io (s : HomeState)
    (o : Except JsValue PredictionResponse) (t : TryOutcome)
    (he : s.ecgFile = none) (hp : s.pcgFile = none) :
    (handleAnalyze s o).called = false ∧
    (handleAnalyze s o).final.error = some "Please upload at least one file (ECG or PCG)" ∧
    (handleAnalyze s o).final.loading = s.loading ∧
    (uploadFiles none none t).1 = false ∧
    (uploadFiles none none t).2 =
      Except.error (JsValue.errorVal "At least one file (ECG or PCG) must be provided") := by
  refine ⟨?_, ?_, ?_, ?_, ?_⟩ <;> simp [handleAnalyze, uploadFiles, he, hp]

/-- Witness for C1 at the initial component state. -/
theorem c1_witness :
    (handleAnalyze emptyState (Except.error JsValue.otherVal)).called = false ∧
    (handleAnalyze emptyState (Except.error JsValue.otherVal)).final.error =
      some "Please upload at least one file (ECG or PCG)" ∧
    (handleAnalyze emptyState (Except.error JsValue.otherVal)).final.loading =
      emptyState.loading ∧
    (uploadFiles none none TryOutcome.axiosNoResponse).1 = false ∧
    (uploadFiles none none TryOutcome.axiosNoResponse).2 =
      Except.error (JsValue.errorVal "At least one file (ECG or PCG) must be provided") :=
  c1_no_files_rejected_before_io emptyState (Except.error JsValue.otherVal)
    TryOutcome.axiosNoResponse rfl rfl

/-- Counterexample to C2 as stated: a thrown condition that is neither a
server error response nor a missing response — here a plain thrown
`Error` with message "boom" — is rethrown with its own message, not
replaced by the generic fallback message. -/
theorem c2_counterexample :
    (uploadFiles (some fileCsv) none (TryOutcome.otherThrownError "boom")).2 =
      Except.error (JsValue.errorVal "boom") ∧
    JsValue.errorVal "boom" ≠
      JsValue.errorVal "An unexpected error occurred during file upload" := by
  refine ⟨rfl, by decide⟩

/-- Claim C2 (amended): the error taxonomy of `uploadFiles` has four
classes, not three: (a) a server error response surfaces the
server-supplied detail (with a fallback for a missing or empty detail)
and the status code; (b) a request without a response surfaces the
distinct server-unreachable message; (c) any other thrown `Error`
(axios setup errors included) is rethrown with its own message unchanged;
(d) only a thrown non-`Error` value yields the generic fallback message. -/
theorem c2_error_taxonomy_amended (e p : Option FileD) (t : TryOutcome)
    (hfile : (e.isSome || p.isSome) = true) :
    (∀ d st, t = TryOutcome.axiosResponse d st →
      (uploadFiles e p t).2 = Except.error (JsValue.errorVal
        (serverDetailMessage d ++ " (Status: " ++ toString st ++ ")"))) ∧
    (t = TryOutcome.axiosNoResponse →
      (uploadFiles e p t).2 = Except.error (JsValue.errorVal
        "Network error: Unable to reach the server. Please check if the backend is running.")) ∧
    (∀ m, t = TryOutcome.axiosOther m →
      (uploadFiles e p t).2 = Except.error (JsValue.errorVal m)) ∧
    (∀ m, t = TryOutcome.otherThrownError m →
      (uploadFiles e p t).2 = Except.error (JsValue.errorVal m)) ∧
    (t = TryOutcome.otherThrownNonError →
      (uploadFiles e p t).2 = Except.error (JsValue.errorVal
        "An unexpected error occurred during file upload")) := by
  have hcond : (e.isNone && p.isNone) = false := by
    cases e <;> cases p <;> simp_all
  refine ⟨fun d st ht => ?_, fun ht => ?_, fun m ht => ?_, fun m ht => ?_, fun ht => ?_⟩ <;>
    subst ht <;> simp [uploadFiles, hcond]

/-- Witness for C2 at a concrete server error response. -/
theorem c2_witness :
    (uploadFiles (some fileCsv) none
        (TryOutcome.axiosResponse (some "Invalid ECG file") 422)).2 =
      Except.error (JsValue.errorVal
        (serverDetailMessage (some "Invalid ECG file") ++ " (Status: " ++
          toString 422 ++ ")")) :=
  (c2_error_taxonomy_amended (some fileCsv) none
    (TryOutcome.axiosResponse (some "Invalid ECG file") 422) rfl).1
    (some "Invalid ECG file") 422 rfl

/-- Counterexample to C3 as stated: the report's risk text for an absent
risk value is "Not Available", not "N/A". -/
theorem c3_counterexample :
    reportRiskText none = "Not Available" ∧ "Not Available" ≠ "N/A" := by
  refine ⟨rfl, by decide⟩

/-- Claim C3 (amended): risk labeling is a deterministic function of the
risk value: above 0.5 the label is "HIGH RISK" with the alternate (red)
color and the report text carries "HIGH RISK"; at or below 0.5 the label
is "LOW RISK" with the emerald color; an absent value yields "N/A" from
`getRiskLabel`, the gray color, and "Not Available" in the report's risk
text. -/
theorem c3_risk_labeling_amended (r : ℚ) :
    getRiskLabel none = "N/A" ∧ getRiskColor none = "text-gray-400" ∧
    reportRiskText none = "Not Available" ∧
    (r > 0.5 →
      getRiskLabel (some r) = "HIGH RISK" ∧ getRiskColor (some r) = "text-red-400" ∧
      reportRiskText (some r) = toFixed1 (r * 100) ++ "% (" ++ "HIGH RISK" ++ ")") ∧
    (r ≤ 0.5 →
      getRiskLabel (some r) = "LOW RISK" ∧ getRiskColor (some r) = "text-emerald-400" ∧
      reportRiskText (some r) = toFixed1 (r * 100) ++ "% (" ++ "LOW RISK" ++ ")") := by
  refine ⟨rfl, rfl, rfl, fun h => ?_, fun h => ?_⟩
  · simp [getRiskLabel, getRiskColor, reportRiskText, h]
  · have h2 : ¬(r > 0.5) := not_lt.mpr h
    simp [getRiskLabel, getRiskColor, reportRiskText, h2]

/-- Witness for C3 at risks 0.7 and 0.2. -/
theorem c3_witness :
    getRiskLabel (some ((7 : ℚ) / 10)) = "HIGH RISK" ∧
    getRiskLabel (some ((2 : ℚ) / 10)) = "LOW RISK" :=
  ⟨((c3_risk_labeling_amended (7 / 10)).2.2.2.1 (by norm_num)).1,
   ((c3_risk_labeling_amended (2 / 10)).2.2.2.2 (by norm_num)).1⟩

/-- Counterexample to C5 as stated: selecting a PCG file from a state
holding a parsed CSV preview leaves the preview in place — only the ECG
handler clears it. -/
theorem c5_counterexample :
    csvState.error = some "previous error" ∧
    csvState.csvData = some [["1"]] ∧
    (handlePcgChange csvState (some fileWav)).1.error = none ∧
    (handlePcgChange csvState (some fileWav)).1.csvData = some [["1"]] ∧
    some [["1"]] ≠ (none : Option (List (List String))) := by
  refine ⟨rfl, rfl, rfl, rfl, by decide⟩

/-- Claim C5 (amended): from any state, selecting an ECG file clears
the prior error and the parsed CSV preview; selecting a PCG file clears
the prior error but leaves the CSV preview unchanged. -/
theorem c5_file_selection_amended (s : HomeState) (f : FileD) :
    (handleEcgChange s (some f)).error = none ∧
    (handleEcgChange s (some f)).csvData = none ∧
    (handleEcgChange s (some f)).ecgFile = some f ∧
    (handlePcgChange s (some f)).1.error = none ∧
    (handlePcgChange s (some f)).1.csvData = s.csvData ∧
    (handlePcgChange s (some f)).1.pcgFile = some f :=
  ⟨rfl, rfl, rfl, rfl, rfl, rfl⟩

/-- Claim C6: viewing the CSV data of the selected ECG file stores the
full table obtained by trimming the text and splitting it on newlines
and commas; the modal displays at most the first 200 rows, shows the
total row count, and notes the truncation when more than 200 rows exist;
and the input "1,2\n3,4\n5,6" yields exactly 3 rows of 2 columns. -/
theorem c6_csv_preview (s : HomeState) (f : FileD) (h : s.ecgFile = some f) :
    (handleViewCsvData s true).csvData = some (csvRows f.text) ∧
    (handleViewCsvData s true).showCsvModal = true ∧
    (csvModalView (csvRows f.text)).displayedRows = (csvRows f.text).take 200 ∧
    (csvModalView (csvRows f.text)).displayedRows.length ≤ 200 ∧
    (csvModalView (csvRows f.text)).rowCountLabel = (csvRows f.text).length ∧
    (200 < (csvRows f.text).length →
      (csvModalView (csvRows f.text)).truncationNote =
        some ("Showing first 200 rows of " ++ toString (csvRows f.text).length ++
          " total rows")) ∧
    csvRows "1,2\n3,4\n5,6" = [["1", "2"], ["3", "4"], ["5", "6"]] := by
  refine ⟨?_, ?_, rfl, ?_, rfl, fun hlen => ?_, by decide⟩
  · simp [handleViewCsvData, h]
  · simp [handleViewCsvData, h]
  · simp [csvModalView]
  · simp [csvModalView, hlen]

/-- Witness for C6 at a state holding the sample CSV file. -/
theorem c6_witness :
    (handleViewCsvData ecgOnlyState true).csvData = some (csvRows fileCsv.text) :=
  (c6_csv_preview ecgOnlyState fileCsv rfl).1

/-- Counterexample to C4 as stated: with a result whose plot, waveform
and spectrogram fields are all absent, the generated report still
contains a chart section — the risk-overview chart, whose on-screen
region is mounted whenever a result is shown — so the chart-section
count is not zero. -/
theorem c4_counterexample :
    noDataResult.ecg_plot_data = none ∧
    noDataResult.pcg_waveform_data = none ∧
    noDataResult.pcg_spectrogram = none ∧
    hasChartSection (generateReport noDataResult (some fileCsv) none envAllOk).1 := by
  refine ⟨rfl, rfl, rfl, ⟨"Risk Assessment Overview", by simp [chartSectionTitles], ?_⟩⟩
  apply mem_docItems_generateReport
  simp [bodyChunks, chunkChart, envAllOk]

/-- Claim C4 (amended): for a result whose plot, waveform and
spectrogram fields are all absent, the report still contains the header,
the risk-assessment section and the files-analyzed section, and contains
no ECG, PCG-waveform or spectrogram chart section — the only possible
chart section is the risk-assessment overview, present exactly when its
on-screen region is mounted and its capture succeeds. -/
theorem c4_report_no_data_amended (r : PredictionResponse) (e p : Option FileD)
    (env : CaptureEnv) (h1 : r.ecg_plot_data = none) (h2 : r.pcg_waveform_data = none)
    (h3 : r.pcg_spectrogram = none) :
    PdfItem.textItem "SmartHeart Analysis Report" ∈
      docItems (generateReport r e p env).1 ∧
    PdfItem.sectionHdr "Risk Assessment Results" ∈
      docItems (generateReport r e p env).1 ∧
    PdfItem.sectionHdr "Files Analyzed" ∈ docItems (generateReport r e p env).1 ∧
    (∀ t, t ∈ chartSectionTitles →
      PdfItem.sectionHdr t ∈ docItems (generateReport r e p env).1 →
      t = "Risk Assessment Overview") ∧
    (PdfItem.sectionHdr "Risk Assessment Overview" ∈
        docItems (generateReport r e p env).1 ↔
      (env.riskChartMounted = true ∧ env.riskCapture.isSome = true)) := by
  refine ⟨?_, ?_, ?_, fun t ht hmem => ?_, ⟨fun hmem => ?_, fun hc => ?_⟩⟩
  · apply mem_docItems_generateReport
    simp [bodyChunks]
  · apply mem_docItems_generateReport
    simp [bodyChunks]
  · apply mem_docItems_generateReport
    simp [bodyChunks]
  · rcases docItems_generateReport r e p env hmem with hb | ⟨s', hs⟩
    · rcases sectionHdr_mem_bodyChunks r e p env hb with
        h | h | ⟨h, _, _⟩ | ⟨_, hcond, _⟩ | ⟨_, hcond, _⟩ | ⟨_, hcond⟩
      · subst h; simp [chartSectionTitles] at ht
      · subst h; simp [chartSectionTitles] at ht
      · exact h
      · rw [h1] at hcond; simp at hcond
      · rw [h2] at hcond; simp at hcond
      · rw [h3] at hcond; simp at hcond
    · exact absurd hs (by simp)
  · rcases docItems_generateReport r e p env hmem with hb | ⟨s', hs⟩
    · rcases sectionHdr_mem_bodyChunks r e p env hb with
        h | h | ⟨_, hc, hcap⟩ | ⟨h, _, _⟩ | ⟨h, _, _⟩ | ⟨h, _⟩
      · exact absurd h (by decide)
      · exact absurd h (by decide)
      · exact ⟨hc, hcap⟩
      · exact absurd h (by decide)
      · exact absurd h (by decide)
      · exact absurd h (by decide)
    · exact absurd hs (by simp)
  · apply mem_docItems_generateReport
    have hx := sectionHdr_mem_chunkChart_self env.riskChartMounted env.riskCapture
      "Risk Assessment Overview" hc.1 hc.2
    simp only [bodyChunks, List.append_assoc, List.mem_append]
    tauto

/-- Witness for C4 at the no-data result with every chart mounted and
captured. -/
theorem c4_witness :
    PdfItem.sectionHdr "Risk Assessment Results" ∈
      docItems (generateReport noDataResult (some fileCsv) none envAllOk).1 ∧
    PdfItem.sectionHdr "Files Analyzed" ∈
      docItems (generateReport noDataResult (some fileCsv) none envAllOk).1 :=
  ⟨(c4_report_no_data_amended noDataResult (some fileCsv) none envAllOk
      rfl rfl rfl).2.1,
   (c4_report_no_data_amended noDataResult (some fileCsv) none envAllOk
      rfl rfl rfl).2.2.1⟩

/-- Claim C9: a failed chart capture is logged and its section skipped,
the remaining sections (header, risk assessment, files analyzed, and any
other chart whose capture succeeds) are still written, and the footer —
the disclaimer plus a "Page X of Y" stamp — appears on every page of the
finished document. -/
theorem c9_capture_fault_tolerance (r : PredictionResponse) (e p : Option FileD)
    (env : CaptureEnv) :
    ((env.riskChartMounted = true ∧ env.riskCapture = none) →
      "Failed to capture risk chart:" ∈ (generateReport r e p env).2 ∧
      PdfItem.sectionHdr "Risk Assessment Overview" ∉
        docItems (generateReport r e p env).1) ∧
    ((r.ecg_plot_data.isSome = true ∧ env.ecgChartMounted = true ∧
        env.ecgCapture = none) →
      "Failed to capture ECG chart:" ∈ (generateReport r e p env).2 ∧
      PdfItem.sectionHdr "ECG Signal Visualization" ∉
        docItems (generateReport r e p env).1) ∧
    ((r.pcg_waveform_data.isSome = true ∧ env.pcgChartMounted = true ∧
        env.pcgCapture = none) →
      "Failed to capture PCG chart:" ∈ (generateReport r e p env).2 ∧
      PdfItem.sectionHdr "PCG Waveform Visualization" ∉
        docItems (generateReport r e p env).1) ∧
    PdfItem.textItem "SmartHeart Analysis Report" ∈
      docItems (generateReport r e p env).1 ∧
    PdfItem.sectionHdr "Risk Assessment Results" ∈
      docItems (generateReport r e p env).1 ∧
    PdfItem.sectionHdr "Files Analyzed" ∈ docItems (generateReport r e p env).1 ∧
    ((r.pcg_waveform_data.isSome = true ∧ env.pcgChartMounted = true ∧
        env.pcgCapture.isSome = true) →
      PdfItem.sectionHdr "PCG Waveform Visualization" ∈
        docItems (generateReport r e p env).1) ∧
    (∀ pg ∈ (generateReport r e p env).1,
      PdfItem.footer disclaimerText ∈ pg ∧
      ∃ n, 1 ≤ n ∧ n ≤ (generateReport r e p env).1.length ∧
        PdfItem.footer (pageOfText n (generateReport r e p env).1.length) ∈ pg) := by
  refine ⟨fun ⟨hm, hcap⟩ => ⟨?_, fun hmem => ?_⟩,
    fun ⟨hd, hm, hcap⟩ => ⟨?_, fun hmem => ?_⟩,
    fun ⟨hd, hm, hcap⟩ => ⟨?_, fun hmem => ?_⟩,
    ?_, ?_, ?_, fun ⟨hd, hm, hcap⟩ => ?_, fun pg hpg => ?_⟩
  · rw [generateReport_logs]
    simp [logChunks, chunkChartLog, hm, hcap]
  · rcases docItems_generateReport r e p env hmem with hb | ⟨s', hs⟩
    · rcases sectionHdr_mem_bodyChunks r e p env hb with
        h | h | ⟨_, _, hcap'⟩ | ⟨h, _, _⟩ | ⟨h, _, _⟩ | ⟨h, _⟩
      · exact absurd h (by decide)
      · exact absurd h (by decide)
      · rw [hcap] at hcap'; simp at hcap'
      · exact absurd h (by decide)
      · exact absurd h (by decide)
      · exact absurd h (by decide)
    · exact absurd hs (by simp)
  · rw [generateReport_logs]
    simp [logChunks, chunkChartLog, hd, hm, hcap]
  · rcases docItems_generateReport r e p env hmem with hb | ⟨s', hs⟩
    · rcases sectionHdr_mem_bodyChunks r e p env hb with
        h | h | ⟨h, _, _⟩ | ⟨_, _, hcap'⟩ | ⟨h, _, _⟩ | ⟨h, _⟩
      · exact absurd h (by decide)
      · exact absurd h (by decide)
      · exact absurd h (by decide)
      · rw [hcap] at hcap'; simp at hcap'
      · exact absurd h (by decide)
      · exact absurd h (by decide)
    · exact absurd hs (by simp)
  · rw [generateReport_logs]
    simp [logChunks, chunkChartLog, hd, hm, hcap]
  · rcases docItems_generateReport r e p env hmem with hb | ⟨s', hs⟩
    · rcases sectionHdr_mem_bodyChunks r e p env hb with
        h | h | ⟨h, _, _⟩ | ⟨h, _, _⟩ | ⟨_, _, hcap'⟩ | ⟨h, _⟩
      · exact absurd h (by decide)
      · exact absurd h (by decide)
      · exact absurd h (by decide)
      · exact absurd h (by decide)
      · rw [hcap] at hcap'; simp at hcap'
      · exact absurd h (by decide)
    · exact absurd hs (by simp)
  · apply mem_docItems_generateReport
    simp [bodyChunks]
  · apply mem_docItems_generateReport
    simp [bodyChunks]
  · apply mem_docItems_generateReport
    simp [bodyChunks]
  · apply mem_docItems_generateReport
    have hx := sectionHdr_mem_chunkChart_self
      (r.pcg_waveform_data.isSome && env.pcgChartMounted) env.pcgCapture
      "PCG Waveform Visualization" (by simp [hd, hm]) hcap
    simp only [bodyChunks, List.append_assoc, List.mem_append]
    tauto
  · have hpg' : pg ∈ stampFooters
        ((genBody r e p env).donePages ++ [(genBody r e p env).current]).length 1
        ((genBody r e p env).donePages ++ [(genBody r e p env).current]) := by
      simpa [generateReport] using hpg
    have hlen : (generateReport r e p env).1.length =
        ((genBody r e p env).donePages ++ [(genBody r e p env).current]).length := by
      simp [generateReport, stampFooters_length]
    refine ⟨disclaimer_mem_stampFooters _ _ _ _ hpg', ?_⟩
    rcases pageOf_mem_stampFooters _ _ _ _ hpg' with ⟨n, h1n, h2n, h3n⟩
    refine ⟨n, h1n, ?_, ?_⟩
    · rw [hlen]; omega
    · rw [hlen]; exact h3n

/-- Witness for C9: a run where the risk and ECG captures fail but the
PCG capture succeeds — both failures are logged, the skipped ECG section
is absent, the PCG section is present, and the first page carries the
disclaimer footer. -/
theorem c9_witness :
    "Failed to capture risk chart:" ∈
      (generateReport fullResult (some fileCsv) (some fileWav) envPartialFail).2 ∧
    "Failed to capture ECG chart:" ∈
      (generateReport fullResult (some fileCsv) (some fileWav) envPartialFail).2 ∧
    PdfItem.sectionHdr "ECG Signal Visualization" ∉
      docItems (generateReport fullResult (some fileCsv) (some fileWav) envPartialFail).1 ∧
    PdfItem.sectionHdr "PCG Waveform Visualization" ∈
      docItems (generateReport fullResult (some fileCsv) (some fileWav) envPartialFail).1 ∧
    PdfItem.footer disclaimerText ∈
      (generateReport fullResult (some fileCsv) (some fileWav) envPartialFail).1.head
        (generateReport_ne_nil fullResult (some fileCsv) (some fileWav) envPartialFail) :=
  ⟨((c9_capture_fault_tolerance fullResult (some fileCsv) (some fileWav)
      envPartialFail).1 ⟨rfl, rfl⟩).1,
   ((c9_capture_fault_tolerance fullResult (some fileCsv) (some fileWav)
      envPartialFail).2.1 ⟨rfl, rfl, rfl⟩).1,
   ((c9_capture_fault_tolerance fullResult (some fileCsv) (some fileWav)
      envPartialFail).2.1 ⟨rfl, rfl, rfl⟩).2,
   (c9_capture_fault_tolerance fullResult (some fileCsv) (some fileWav)
      envPartialFail).2.2.2.2.2.2.1 ⟨rfl, rfl, rfl⟩,
   ((c9_capture_fault_tolerance fullResult (some fileCsv) (some fileWav)
      envPartialFail).2.2.2.2.2.2.2
      ((generateReport fullResult (some fileCsv) (some fileWav) envPartialFail).1.head
        (generateReport_ne_nil fullResult (some fileCsv) (some fileWav) envPartialFail))
      (List.head_mem
        (generateReport_ne_nil fullResult (some fileCsv) (some fileWav)
          envPartialFail))).1⟩

/-- Claim C7: across any sequence of consecutive PCG file selections the
object-URL actions follow the strict pattern "revoke the previously held
URL, then create the fresh one", so every created URL except the last one
is revoked within the same trace — no object URL leaks across
selections. -/
theorem c7_url_revocation (s : HomeState) (fs : List FileD) :
    pcgSelectTrace s fs = expectedUrlTrace s.pcgAudioUrl s.nextUrl fs.length ∧
    (∀ u, UrlEvent.create u ∈ pcgSelectTrace s fs →
      UrlEvent.revoke u ∈ pcgSelectTrace s fs ∨ u = s.nextUrl + fs.length - 1) := by
  refine ⟨pcgSelectTrace_eq fs s, fun u hu => ?_⟩
  rw [pcgSelectTrace_eq fs s] at hu ⊢
  exact expectedUrlTrace_no_leak fs.length s.pcgAudioUrl s.nextUrl u hu

/-- Witness for C7: two consecutive selections from the initial state;
the first created URL is indeed revoked (or was the last). -/
theorem c7_witness :
    UrlEvent.revoke 0 ∈ pcgSelectTrace emptyState [fileWav, fileWav2] ∨
      (0 : ℕ) = emptyState.nextUrl + ([fileWav, fileWav2] : List FileD).length - 1 :=
  (c7_url_revocation emptyState [fileWav, fileWav2]).2 0 (by decide)

/-- Claim C8: a submission with at least one file selected invokes the
API client, shows the analyzing state while the request is in flight
(loading set, error cleared), always clears the loading flag on
resolution, stores the result and resets the active tab to the first tab
on success, and sets the caught error message on failure. -/
theorem c8_analyze_transitions (s : HomeState) (o : Except JsValue PredictionResponse)
    (hfile : (s.ecgFile.isSome || s.pcgFile.isSome) = true) :
    (handleAnalyze s o).called = true ∧
    (handleAnalyze s o).mid.loading = true ∧
    (handleAnalyze s o).mid.error = none ∧
    (handleAnalyze s o).final.loading = false ∧
    (∀ r, o = Except.ok r →
      (handleAnalyze s o).final.result = some r ∧
      (handleAnalyze s o).final.activeTab = 0 ∧
      (handleAnalyze s o).final.error = none) ∧
    (∀ v, o = Except.error v →
      (handleAnalyze s o).final.error = some (caughtMessage v) ∧
      (handleAnalyze s o).final.result = s.result) := by
  have hcond : (s.ecgFile.isNone && s.pcgFile.isNone) = false := by
    cases he : s.ecgFile <;> cases hp : s.pcgFile <;> simp_all
  cases o with
  | ok r0 =>
    refine ⟨by simp [handleAnalyze, hcond], by simp [handleAnalyze, hcond],
      by simp [handleAnalyze, hcond], by simp [handleAnalyze, hcond],
      fun r hr => ?_, fun v hv => Except.noConfusion hv⟩
    injection hr with h
    subst h
    simp [handleAnalyze, hcond]
  | error v0 =>
    refine ⟨by simp [handleAnalyze, hcond], by simp [handleAnalyze, hcond],
      by simp [handleAnalyze, hcond], by simp [handleAnalyze, hcond],
      fun r hr => Except.noConfusion hr, fun v hv => ?_⟩
    injection hv with h
    subst h
    simp [handleAnalyze, hcond]

/-- Witness for C8 at a state with an ECG file and a successful
response. -/
theorem c8_witness :
    (handleAnalyze ecgOnlyState (Except.ok fullResult)).called = true ∧
    (handleAnalyze ecgOnlyState (Except.ok fullResult)).final.activeTab = 0 ∧
    (handleAnalyze ecgOnlyState (Except.ok fullResult)).final.loading = false :=
  ⟨(c8_analyze_transitions ecgOnlyState (Except.ok fullResult) rfl).1,
   ((c8_analyze_transitions ecgOnlyState (Except.ok fullResult) rfl).2.2.2.2.1
     fullResult rfl).2.1,
   (c8_analyze_transitions ecgOnlyState (Except.ok fullResult) rfl).2.2.2.1⟩

/-- Claim C10: `checkHealth` is a total function of the request outcome
(it never throws), returning true exactly when the backend responded
with HTTP status 200, and false on any error or non-200 response. -/
theorem c10_check_health_total (o : HealthOutcome) :
    checkHealth o = true ↔ o = HealthOutcome.response 200 := by
  cases o with
  | response st => simp [checkHealth]
  | failure => simp [checkHealth]

end SmartHeart
